import Mathlib

/-!
Verification development for the ooosh-utilities repository: a shallow
embedding, in Lean, of the Monday.com webhook handlers
(date-copy-automation.js, crew-transport-link.js, qh-client-linked.js,
bulk-date-migration.js) and the address-book name parsing
(address-book-updates.js), together with theorems settling the behavioural
claims about the field extractors, the date derivation rules, the
convergence/loop guards and the dispatcher control flow.

External effects are embedded by explicit parameter passing: the result of
the GraphQL item fetch is an argument of each handler function, and the
mutations a handler would issue are returned as an explicit list of write
operations.  JavaScript nullable values are `Option`s; JS truthiness of
strings and numbers is modelled explicitly ("" and 0 are falsy).
-/

/-- Truthiness of a nullable JS string: null/undefined and the empty string
are falsy. -/
def jsTruthyStr : Option String → Bool
  | some s => s ≠ ""
  | none => false

/-- Truthiness of a nullable JS number: null/undefined and 0 are falsy. -/
def jsTruthyInt : Option Int → Bool
  | some n => n ≠ 0
  | none => false

/-- Models the JS expression `x || null` on a nullable string: a null or
empty string collapses to null. -/
def optText : Option String → Option String
  | some s => if s = "" then none else some s
  | none => none

/-- Models the JS expression `a || b` on nullable numbers (used for
`webhookEvent.pulseId || webhookEvent.itemId`). -/
def jsOrInt : Option Int → Option Int → Option Int
  | some n, b => if n = 0 then b else some n
  | none, b => b

/-- The fields of a parsed column-value JSON payload that the handlers read
(`parsed.date`, `parsed.label`, `parsed.index`, `parsed.url`,
`parsed.text`).  A field absent from the JSON object is `none`. -/
structure ParsedValue where
  date : Option String := none
  label : Option String := none
  index : Option Int := none
  url : Option String := none
  text : Option String := none
  deriving DecidableEq

/-- The raw `value` of a column entry as the JS code observes it:
`noValue` when `column.value` is null/empty (falsy, the `if (column.value)`
guard fails), `malformed` when `JSON.parse(column.value)` throws (caught,
falls back to text), `parsed p` when it parses. -/
inductive RawValue where
  | noValue
  | malformed
  | parsed (p : ParsedValue)
  deriving DecidableEq

/-- One entry of an item's `column_values` as returned by the GraphQL
query: `{ id, text, value }`, plus the `display_value` field that only the
qh-client-linked query requests via the MirrorValue fragment
(`none` = field absent/undefined, `some none` = present but null). -/
structure ColumnValue where
  id : String
  text : Option String := none
  value : RawValue := .noValue
  display_value : Option (Option String) := none
  deriving DecidableEq

/-- A Monday.com item as fetched by the handlers: id, name and column
values. -/
structure Item where
  id : Int
  name : String := ""
  column_values : List ColumnValue := []
  deriving DecidableEq

/-- date-copy-automation.js / bulk-date-migration.js `getColumnValue`:
find the column, return `parsed.date` when the payload parses and the field
is truthy, otherwise fall back to `column.text || null`. -/
def getColumnValue (columnValues : List ColumnValue) (columnId : String) : Option String :=
  match columnValues.find? (fun col => col.id == columnId) with
  | none => none
  | some column =>
    match column.value with
    | .parsed parsed =>
      match parsed.date with
      | some d => if d = "" then optText column.text else some d
      | none => optText column.text
    | _ => optText column.text

/-- date-copy-automation.js / bulk-date-migration.js `getStatusLabel`:
return `parsed.label` when truthy; when instead an `index` is present,
return `column.text || null`; on parse failure or absence fall back to
`column.text || null`. -/
def getStatusLabel (columnValues : List ColumnValue) (columnId : String) : Option String :=
  match columnValues.find? (fun col => col.id == columnId) with
  | none => none
  | some column =>
    match column.value with
    | .parsed parsed =>
      match parsed.label with
      | some l =>
        if l = "" then
          if parsed.index.isSome then optText column.text else optText column.text
        else some l
      | none =>
        if parsed.index.isSome then optText column.text else optText column.text
    | _ => optText column.text

/-- crew-transport-link.js `getLinkUrl`: return `parsed.url` when truthy,
else fall back to `column.text || null`. -/
def getLinkUrl (columnValues : List ColumnValue) (columnId : String) : Option String :=
  match columnValues.find? (fun col => col.id == columnId) with
  | none => none
  | some column =>
    match column.value with
    | .parsed parsed =>
      match parsed.url with
      | some u => if u = "" then optText column.text else some u
      | none => optText column.text
    | _ => optText column.text

/-- crew-transport-link.js `getLinkDisplayText`: return `parsed.text` when
truthy; otherwise null (no fallback to the rendered text). -/
def getLinkDisplayText (columnValues : List ColumnValue) (columnId : String) : Option String :=
  match columnValues.find? (fun col => col.id == columnId) with
  | none => none
  | some column =>
    match column.value with
    | .parsed parsed =>
      match parsed.text with
      | some t => if t = "" then none else some t
      | none => none
    | _ => none

/-- crew-transport-link.js `getTextColumnValue`: `column.text || null`. -/
def getTextColumnValue (columnValues : List ColumnValue) (columnId : String) : Option String :=
  match columnValues.find? (fun col => col.id == columnId) with
  | none => none
  | some column => optText column.text

/-- qh-client-linked.js `getMirrorValue`:
`column.display_value !== undefined ? column.display_value : column.text`. -/
def getMirrorValue (columnValues : List ColumnValue) (columnId : String) : Option String :=
  match columnValues.find? (fun col => col.id == columnId) with
  | none => none
  | some column =>
    match column.display_value with
    | some dv => dv
    | none => column.text

/-- A calendar date, the components `getUTCFullYear` / `getUTCMonth`+1 /
`getUTCDate` of a JS `Date`. -/
structure CalDate where
  y : Nat
  m : Nat
  d : Nat
  deriving DecidableEq

/-- Gregorian leap-year rule, as implemented by the JS `Date` UTC
calendar. -/
def isLeapYear (y : Nat) : Bool :=
  (y % 4 == 0 && y % 100 != 0) || y % 400 == 0

/-- Length of a month in the proleptic Gregorian calendar used by JS
`Date` UTC arithmetic. -/
def daysInMonth (y m : Nat) : Nat :=
  if m = 2 then (if isLeapYear y then 29 else 28)
  else if m = 4 ∨ m = 6 ∨ m = 9 ∨ m = 11 then 30
  else 31

/-- A well-formed calendar date (month 1..12, day within the month,
positive year). -/
def ValidDate (c : CalDate) : Prop :=
  1 ≤ c.y ∧ 1 ≤ c.m ∧ c.m ≤ 12 ∧ 1 ≤ c.d ∧ c.d ≤ daysInMonth c.y c.m

instance (c : CalDate) : Decidable (ValidDate c) := by
  unfold ValidDate; exact inferInstance

/-- Calendar successor: the effect of `date.setUTCDate(date.getUTCDate() + 1)`
on the UTC calendar components of a valid noon-UTC timestamp. -/
def nextDay (c : CalDate) : CalDate :=
  if c.d < daysInMonth c.y c.m then ⟨c.y, c.m, c.d + 1⟩
  else if c.m < 12 then ⟨c.y, c.m + 1, 1⟩
  else ⟨c.y + 1, 1, 1⟩

/-- Calendar predecessor: the effect of `date.setUTCDate(date.getUTCDate() - 1)`
on the UTC calendar components of a valid noon-UTC timestamp. -/
def prevDay (c : CalDate) : CalDate :=
  if 1 < c.d then ⟨c.y, c.m, c.d - 1⟩
  else if 1 < c.m then ⟨c.y, c.m - 1, daysInMonth c.y (c.m - 1)⟩
  else ⟨c.y - 1, 12, 31⟩

/-- The `MakeDay` day-overflow normalization of the JS ISO date parser: a
day count exceeding the month length rolls into the following month (e.g.
"2025-02-30" denotes March 2).  For a valid date this is the identity. -/
def normalizeOverflow (c : CalDate) : CalDate :=
  if c.d ≤ daysInMonth c.y c.m then c
  else ⟨c.y, c.m + 1, c.d - daysInMonth c.y c.m⟩

/-- The decimal digit characters of a number below 100 as produced by
`String(n).padStart(2, '0')`. -/
def pad2Chars (n : Nat) : List Char :=
  [Nat.digitChar (n / 10 % 10), Nat.digitChar (n % 10)]

/-- The decimal digit characters of a four-digit year as produced by the
JS template `${year}` (no padding; equal to `String(y)` exactly when
1000 ≤ y ≤ 9999, the YYYY domain of the claims). -/
def year4Chars (y : Nat) : List Char :=
  [Nat.digitChar (y / 1000 % 10), Nat.digitChar (y / 100 % 10),
   Nat.digitChar (y / 10 % 10), Nat.digitChar (y % 10)]

/-- The string `${year}-${month}-${day}` built by `subtractOneDay` /
`addOneDay` after re-extracting the UTC components (month and day padded
to two digits with padStart). -/
def formatDate (c : CalDate) : String :=
  String.mk (year4Chars c.y ++ '-' :: pad2Chars c.m ++ '-' :: pad2Chars c.d)

/-- Numeric value of a decimal digit character. -/
def digitVal (c : Char) : Nat := c.toNat - 48

/-- The ECMAScript ISO date-only parse performed by
`new Date(dateString + 'T12:00:00Z')`: fixed-width `YYYY-MM-DD`, digits at
digit positions, month 01..12 and day 01..31 per the Date Time String
Format grammar; anything else is an Invalid Date (`none`). -/
def parseDateFixed (s : String) : Option CalDate :=
  match s.data with
  | [y1, y2, y3, y4, '-', m1, m2, '-', d1, d2] =>
    if y1.isDigit ∧ y2.isDigit ∧ y3.isDigit ∧ y4.isDigit ∧ m1.isDigit ∧
        m2.isDigit ∧ d1.isDigit ∧ d2.isDigit then
      let y := digitVal y1 * 1000 + digitVal y2 * 100 + digitVal y3 * 10 + digitVal y4
      let m := digitVal m1 * 10 + digitVal m2
      let d := digitVal d1 * 10 + digitVal d2
      if 1 ≤ m ∧ m ≤ 12 ∧ 1 ≤ d ∧ d ≤ 31 then some ⟨y, m, d⟩ else none
    else none
  | _ => none

/-- date-copy-automation.js `subtractOneDay`: parse the `YYYY-MM-DD` string
at noon UTC (avoiding any timezone/DST shift), subtract one calendar day,
and re-format the UTC components zero-padded.  An unparseable input yields
the JS `"NaN-NaN-NaN"` rendering of an Invalid Date. -/
def subtractOneDay (dateString : String) : String :=
  match parseDateFixed dateString with
  | some c => formatDate (prevDay (normalizeOverflow c))
  | none => "NaN-NaN-NaN"

/-- bulk-date-migration.js `addOneDay`: parse the `YYYY-MM-DD` string at
noon UTC, add one calendar day, and re-format the UTC components
zero-padded. -/
def addOneDay (dateString : String) : String :=
  match parseDateFixed dateString with
  | some c => formatDate (nextDay (normalizeOverflow c))
  | none => "NaN-NaN-NaN"

/-- crew-transport-link.js `extractJobId` inner scan: the first position at
which the regex `[?&]id=(\d+)` matches, returning the maximal digit run of
the capture group. -/
def extractJobIdAux : List Char → Option String
  | [] => none
  | c :: rest =>
    if c = '?' ∨ c = '&' then
      match rest with
      | 'i' :: 'd' :: '=' :: rest2 =>
        let digits := rest2.takeWhile (fun ch => ch.isDigit)
        if digits = [] then extractJobIdAux rest else some (String.mk digits)
      | _ => extractJobIdAux rest
    else extractJobIdAux rest

/-- crew-transport-link.js `extractJobId`: `url.match(/[?&]id=(\d+)/)`,
returning the captured digit sequence or null. -/
def extractJobId (url : String) : Option String :=
  if url = "" then none else extractJobIdAux url.data

/-- The separator characters of the regex split in `extractFirstName`
(ASCII hyphen, en dash, em dash, pipe, slash). -/
def isNameSeparator (c : Char) : Bool :=
  c = '-' ∨ c = '–' ∨ c = '—' ∨ c = '|' ∨ c = '/'

/-- JS `String.prototype.trim` at the character-list level. -/
def trimChars (l : List Char) : List Char :=
  ((l.dropWhile Char.isWhitespace).reverse.dropWhile Char.isWhitespace).reverse

/-- Split a character list at whitespace characters (each whitespace char
ends a chunk; empty chunks are kept and filtered by the caller, matching
`split(/\s+/)` composed with the nonempty filter). -/
def splitAtWs : List Char → List (List Char)
  | [] => [[]]
  | c :: rest =>
    if c.isWhitespace then [] :: splitAtWs rest
    else
      match splitAtWs rest with
      | w :: ws => (c :: w) :: ws
      | [] => [[c]]

/-- The whitespace-separated words of a character list, empty chunks
removed (the effect of `namePart.split(/\s+/).filter(w => w.length > 0)`
on a list of characters). -/
def wordsOf (l : List Char) : List (List Char) :=
  (splitAtWs l).filter (fun w => w ≠ [])

/-- address-book-updates.js `NAME_PREFIXES`: honorifics removed when
extracting a first name. -/
def namePrefixes : List String :=
  ["mr", "mrs", "ms", "miss", "dr", "prof", "sir", "lady", "rev", "mx"]

/-- address-book-updates.js `extractFirstName`: split on the separator set
and keep the first segment, trim it, split into whitespace words; if the
first word (lower-cased, with every '.' and ',' removed) is a known
honorific and more than one word remains, return the second word, else the
first; empty or whitespace-only input yields the empty string. -/
def extractFirstName (fullName : String) : String :=
  if fullName = "" then ""
  else
    let namePart := trimChars (fullName.data.takeWhile (fun c => ¬ isNameSeparator c))
    match wordsOf namePart with
    | [] => ""
    | w :: rest =>
      let firstWordLower := (w.map Char.toLower).filter (fun c => ¬ (c = '.' ∨ c = ','))
      if namePrefixes.contains (String.mk firstWordLower) then
        match rest with
        | w2 :: _ => String.mk w2
        | [] => String.mk w
      else String.mk w

/-- Modelled from the spec (name-splitting rule, §4.2): split on the fixed
separator set and take the first segment; split that segment into
whitespace words; if the first word, compared case-insensitively with
punctuation stripped, is in the honorific list and more than one word
remains, the first name is the second word, else the first word; empty
input yields empty output.  Stated independently of the implementation to
check the code against the spec wording. -/
def firstNameSpec (s : String) : String :=
  let segment := s.data.takeWhile (fun c => ¬ isNameSeparator c)
  let ws := wordsOf (trimChars segment)
  if ws.length = 0 then ""
  else
    let first := ws.headD []
    let key := String.mk ((first.map Char.toLower).filter (fun c => c ≠ '.' ∧ c ≠ ','))
    if namePrefixes.contains key ∧ 1 < ws.length then String.mk (ws.getD 1 [])
    else String.mk first

/-- The fields of a Monday.com webhook event that the handlers read. -/
structure WebhookEvent where
  pulseId : Option Int := none
  itemId : Option Int := none
  columnId : Option String := none
  boardId : Option Int := none
  deriving DecidableEq

/-- The body of an inbound HTTP request as the handler observes it:
`malformed` when `JSON.parse(event.body)` throws (which the outer catch
turns into an HTTP 500 error response), otherwise the parsed payload. -/
inductive RequestBody where
  | malformed
  | parsed (challenge : Option String) (event : Option WebhookEvent)
  deriving DecidableEq

/-- An inbound HTTP request: method plus (possibly unparseable) JSON
body. -/
structure Request where
  httpMethod : String
  body : RequestBody
  deriving DecidableEq

/-- A typed column value as serialized into a
`change_multiple_column_values` mutation: date columns as
`{ date: "YYYY-MM-DD" }`, text/status columns as the bare string, link
columns as `{ url, text }`, email columns as `{ email, text }`. -/
inductive ColSetting where
  | dateVal (d : String)
  | textVal (t : String)
  | linkVal (url : String) (text : String)
  | emailVal (email : String) (text : String)
  deriving DecidableEq

/-- One mutation call: the item it targets and the map of column id to new
value serialized into the single `change_multiple_column_values` call. -/
structure WriteOp where
  itemId : Option Int
  cols : List (String × ColSetting)
  deriving DecidableEq

/-- The exit taken by a handler invocation, distinguishing every response
shape of the dispatcher state machine. -/
inductive Outcome where
  | optionsPreflight
  | methodNotAllowed
  | challengeEcho
  | noEvent
  | columnNotMonitored
  | boardNotMonitored
  | fetchFailed
  | noSourceValue
  | cannotExtractId
  | noUpdateNeeded
  | loopRiskSkip
  | updated
  | parseError
  deriving DecidableEq

/-- What a single handler invocation produced: HTTP status code, the exit
taken, and the mutations issued upstream (empty when no write was
performed). -/
structure HandlerResult where
  statusCode : Nat
  outcome : Outcome
  writes : List WriteOp
  deriving DecidableEq

/-- date-copy-automation.js board and column configuration. -/
def MONDAY_BOARD_ID : Int := 2431480012

/-- The source date column `date_mkzzmse7` of the date-copy automation. -/
def SOURCE_DATE_COLUMN : String := "date_mkzzmse7"

/-- The target date column `dup__of_hire_starts` of the date-copy
automation. -/
def TARGET_DATE_COLUMN : String := "dup__of_hire_starts"

/-- The rehearsal status column `dup__of_vehicle_`. -/
def VEHICLE_STATUS_COLUMN : String := "dup__of_vehicle_"

/-- The status label that skips the one-day shift. -/
def REHEARSAL_LABEL : String := "Rehearsal"

/-- The date derivation of date-copy-automation.js (lines 152-166): copy
as-is when the status is "Rehearsal", otherwise subtract one day. -/
def deriveTargetDate (sourceDate : String) (vehicleStatus : Option String) : String :=
  if vehicleStatus = some REHEARSAL_LABEL then sourceDate
  else subtractOneDay sourceDate

/-- The per-item logic of date-copy-automation.js after a successful fetch:
extract source date and status, derive the target date, and write it only
when the current target differs (the Convergence Guard at lines 170-191). -/
def dateCopyCore (item : Item) (writeItemId : Option Int) : HandlerResult :=
  match getColumnValue item.column_values SOURCE_DATE_COLUMN with
  | none => ⟨200, .noSourceValue, []⟩
  | some sourceDate =>
    let vehicleStatus := getStatusLabel item.column_values VEHICLE_STATUS_COLUMN
    let targetDate := deriveTargetDate sourceDate vehicleStatus
    let currentTargetDate := getColumnValue item.column_values TARGET_DATE_COLUMN
    if currentTargetDate = some targetDate then ⟨200, .noUpdateNeeded, []⟩
    else ⟨200, .updated, [⟨writeItemId, [(TARGET_DATE_COLUMN, .dateVal targetDate)]⟩]⟩

/-- The full date-copy-automation.js handler: OPTIONS preflight, 405 on
non-POST, challenge echo, no-event ping, monitored-column filter
(`MONITORED_COLUMNS.includes(columnId)`), board filter
(`boardId && boardId !== BOARD_ID`), fetch (result passed in), then the
per-item core.  A body whose `JSON.parse` throws reaches the outer catch
and yields HTTP 500. -/
def dateCopyHandler (req : Request) (fetched : Option Item) : HandlerResult :=
  if req.httpMethod = "OPTIONS" then ⟨200, .optionsPreflight, []⟩
  else if req.httpMethod ≠ "POST" then ⟨405, .methodNotAllowed, []⟩
  else match req.body with
  | .malformed => ⟨500, .parseError, []⟩
  | .parsed challenge event =>
    if jsTruthyStr challenge then ⟨200, .challengeEcho, []⟩
    else match event with
    | none => ⟨200, .noEvent, []⟩
    | some ev =>
      if ¬ (ev.columnId = some SOURCE_DATE_COLUMN ∨ ev.columnId = some VEHICLE_STATUS_COLUMN) then
        ⟨200, .columnNotMonitored, []⟩
      else if jsTruthyInt ev.boardId ∧ ev.boardId ≠ some MONDAY_BOARD_ID then
        ⟨200, .boardNotMonitored, []⟩
      else match fetched with
      | none => ⟨500, .fetchFailed, []⟩
      | some item => dateCopyCore item (jsOrInt ev.pulseId ev.itemId)

/-- crew-transport-link.js column configuration: the triggering HireHop
link column. -/
def SOURCE_LINK_COLUMN : String := "link"

/-- The portal link column `link_mm07k8n4`. -/
def TARGET_LINK_COLUMN : String := "link_mm07k8n4"

/-- The job-id text column `text_mm07fcs` (text7), the secondary
idempotency marker of the loop guard. -/
def TARGET_TEXT_COLUMN : String := "text_mm07fcs"

/-- Display text written to the portal link column. -/
def DISPLAY_TEXT : String := "Transport / crew"

/-- Base of the portal URL the job id is appended to. -/
def PORTAL_BASE_URL : String :=
  "https://ooosh-freelancer-portal.netlify.app/staff/crew-transport?job="

/-- The per-item logic of crew-transport-link.js after a successful fetch:
read the HireHop URL and current display text, extract the job id, read the
text7 marker, skip (loop protection, lines 177-195) only when BOTH the
display text and text7 already equal the job id, otherwise write all three
columns in one mutation (lines 205-209). -/
def crewTransportCore (item : Item) (writeItemId : Option Int) : HandlerResult :=
  match getLinkUrl item.column_values SOURCE_LINK_COLUMN with
  | none => ⟨200, .noSourceValue, []⟩
  | some hirehopUrl =>
    let currentDisplayText := getLinkDisplayText item.column_values SOURCE_LINK_COLUMN
    match extractJobId hirehopUrl with
    | none => ⟨200, .cannotExtractId, []⟩
    | some jobId =>
      let currentText7Value := getTextColumnValue item.column_values TARGET_TEXT_COLUMN
      if currentDisplayText = some jobId ∧ currentText7Value = some jobId then
        ⟨200, .loopRiskSkip, []⟩
      else
        ⟨200, .updated,
          [⟨writeItemId,
            [(TARGET_LINK_COLUMN, .linkVal (PORTAL_BASE_URL ++ jobId) DISPLAY_TEXT),
             (TARGET_TEXT_COLUMN, .textVal jobId),
             (SOURCE_LINK_COLUMN, .linkVal hirehopUrl jobId)]⟩]⟩

/-- The full crew-transport-link.js handler: same dispatcher shape as
date-copy-automation.js but monitoring only the `link` column. -/
def crewTransportLinkHandler (req : Request) (fetched : Option Item) : HandlerResult :=
  if req.httpMethod = "OPTIONS" then ⟨200, .optionsPreflight, []⟩
  else if req.httpMethod ≠ "POST" then ⟨405, .methodNotAllowed, []⟩
  else match req.body with
  | .malformed => ⟨500, .parseError, []⟩
  | .parsed challenge event =>
    if jsTruthyStr challenge then ⟨200, .challengeEcho, []⟩
    else match event with
    | none => ⟨200, .noEvent, []⟩
    | some ev =>
      if ev.columnId ≠ some SOURCE_LINK_COLUMN then ⟨200, .columnNotMonitored, []⟩
      else if jsTruthyInt ev.boardId ∧ ev.boardId ≠ some MONDAY_BOARD_ID then
        ⟨200, .boardNotMonitored, []⟩
      else match fetched with
      | none => ⟨500, .fetchFailed, []⟩
      | some item => crewTransportCore item (jsOrInt ev.pulseId ev.itemId)

/-- qh-client-linked.js `updateMultipleColumns` per-column serialization:
the client email column gets `{ email, text }` when the value is truthy,
every other (or empty) value is written as bare text. -/
def qhColSetting (columnId : String) (value : String) : ColSetting :=
  if columnId = "text1" ∧ value ≠ "" then .emailVal value value
  else .textVal value

/-- The per-item logic of qh-client-linked.js after a successful fetch
(lines 115-126): read both mirror columns and unconditionally write them
to text1/text6 — there is no comparison with the current values. -/
def qhClientLinkedCore (item : Item) (writeItemId : Option Int) : HandlerResult :=
  let mirroredEmail := getMirrorValue item.column_values "mirror_14"
  let mirroredName := getMirrorValue item.column_values "mirror_145"
  ⟨200, .updated,
    [⟨writeItemId,
      [("text1", qhColSetting "text1" (mirroredEmail.getD "")),
       ("text6", qhColSetting "text6" (mirroredName.getD ""))]⟩]⟩

/-- The full qh-client-linked.js handler: dispatcher monitoring only
`connect_boards7`, then the unconditional mirror copy. -/
def qhClientLinkedHandler (req : Request) (fetched : Option Item) : HandlerResult :=
  if req.httpMethod = "OPTIONS" then ⟨200, .optionsPreflight, []⟩
  else if req.httpMethod ≠ "POST" then ⟨405, .methodNotAllowed, []⟩
  else match req.body with
  | .malformed => ⟨500, .parseError, []⟩
  | .parsed challenge event =>
    if jsTruthyStr challenge then ⟨200, .challengeEcho, []⟩
    else match event with
    | none => ⟨200, .noEvent, []⟩
    | some ev =>
      if ev.columnId ≠ some "connect_boards7" then ⟨200, .columnNotMonitored, []⟩
      else if jsTruthyInt ev.boardId ∧ ev.boardId ≠ some MONDAY_BOARD_ID then
        ⟨200, .boardNotMonitored, []⟩
      else match fetched with
      | none => ⟨500, .fetchFailed, []⟩
      | some item => qhClientLinkedCore item (jsOrInt ev.pulseId ev.itemId)

/-- The board state of one column after a mutation persists the given
typed value (Monday re-renders `text` from the value; the raw payload
becomes the serialized object). -/
def applyColSetting (setting : ColSetting) (c : ColumnValue) : ColumnValue :=
  match setting with
  | .dateVal v => { c with text := some v, value := .parsed { date := some v } }
  | .textVal v => { c with text := some v, value := .parsed {} }
  | .linkVal u t => { c with text := some t, value := .parsed { url := some u, text := some t } }
  | .emailVal _ t => { c with text := some t, value := .parsed { text := some t } }

/-- Persist one column assignment into a column-value list (columns keep
their position and identity; only the addressed column changes). -/
def setColumn (cvs : List ColumnValue) (columnId : String) (setting : ColSetting) :
    List ColumnValue :=
  cvs.map (fun c => if c.id = columnId then applyColSetting setting c else c)

/-- Persist a whole mutation call into an item's column values. -/
def applyWriteOp (item : Item) (w : WriteOp) : Item :=
  { item with
    column_values := w.cols.foldl (fun cvs p => setColumn cvs p.1 p.2) item.column_values }

/-- Persist a list of mutation calls in order. -/
def applyWriteOps (item : Item) (ws : List WriteOp) : Item :=
  ws.foldl applyWriteOp item

/-- bulk-date-migration.js source column (`dup__of_hire_starts`, where the
dates currently live — the REVERSE direction of the webhook automation). -/
def BULK_SOURCE_DATE_COLUMN : String := "dup__of_hire_starts"

/-- bulk-date-migration.js target column (`date_mkzzmse7`). -/
def BULK_TARGET_DATE_COLUMN : String := "date_mkzzmse7"

/-- bulk-date-migration.js `fetchAllItems`: the do-while cursor loop that
keeps requesting the next page until the API returns a null cursor,
accumulating every item.  The board is embedded as the sequence of pages
the cursor chain yields; the loop runs once per page and exhausts them
all in this single invocation. -/
def fetchAllItems : List (List Item) → List Item
  | [] => []
  | page :: rest => page ++ fetchAllItems rest

/-- The analysis accumulator of the bulk migration handler (step 2),
mirroring the fields of the `analysis` object that the claims mention. -/
structure BulkAnalysis where
  totalItems : Nat := 0
  itemsWithSourceDate : Nat := 0
  itemsNeedingUpdate : Nat := 0
  itemsAlreadyCorrect : Nat := 0
  itemsSkipped : Nat := 0
  rehearsals : Nat := 0
  nonRehearsals : Nat := 0
  updates : List (Int × String) := []
  deriving DecidableEq

/-- One iteration of the bulk migration's per-item analysis loop
(bulk-date-migration.js lines 73-128). -/
def bulkAnalyzeStep (a : BulkAnalysis) (item : Item) : BulkAnalysis :=
  match getColumnValue item.column_values BULK_SOURCE_DATE_COLUMN with
  | none => { a with itemsSkipped := a.itemsSkipped + 1 }
  | some sourceDate =>
    let currentTargetDate := getColumnValue item.column_values BULK_TARGET_DATE_COLUMN
    let vehicleStatus := getStatusLabel item.column_values VEHICLE_STATUS_COLUMN
    let isRehearsal := vehicleStatus = some REHEARSAL_LABEL
    let calculatedTargetDate := if isRehearsal then sourceDate else addOneDay sourceDate
    let a := { a with
      itemsWithSourceDate := a.itemsWithSourceDate + 1,
      rehearsals := if isRehearsal then a.rehearsals + 1 else a.rehearsals,
      nonRehearsals := if isRehearsal then a.nonRehearsals else a.nonRehearsals + 1 }
    if currentTargetDate = some calculatedTargetDate then
      { a with itemsAlreadyCorrect := a.itemsAlreadyCorrect + 1 }
    else
      { a with
        itemsNeedingUpdate := a.itemsNeedingUpdate + 1,
        updates := a.updates ++ [(item.id, calculatedTargetDate)] }

/-- The whole analysis pass over the fetched items. -/
def bulkAnalyze (items : List Item) : BulkAnalysis :=
  items.foldl bulkAnalyzeStep { totalItems := items.length }

/-- The query-string parameters of a bulk migration invocation.  The code
reads only `execute`; a `cursor` parameter is modelled so it can be stated
that the handler ignores it (there is no resumption input). -/
structure BulkParams where
  execute : Option String := none
  cursor : Option String := none
  deriving DecidableEq

/-- The response of a bulk migration invocation: status code, mode string,
the analysis summary and the mutations issued.  The response JSON carries
no resumption cursor field. -/
structure BulkResult where
  statusCode : Nat
  mode : String
  analysis : BulkAnalysis
  writes : List WriteOp
  deriving DecidableEq

/-- bulk-date-migration.js handler: fetch ALL pages of the board in this
one invocation, analyze every item, and in dry-run mode report the
analysis, in execute mode issue every queued update (batching only inserts
delays, modelled as pure sequencing). -/
def bulkMigrationHandler (params : BulkParams) (pages : List (List Item)) : BulkResult :=
  let allItems := fetchAllItems pages
  let analysis := bulkAnalyze allItems
  if params.execute = some "true" then
    ⟨200, "EXECUTED", analysis,
      analysis.updates.map (fun u => ⟨some u.1, [(BULK_TARGET_DATE_COLUMN, .dateVal u.2)]⟩)⟩
  else
    ⟨200, "DRY RUN - No changes made", analysis, []⟩

/-- A concrete item whose text7 marker already equals the job id while the
source link's display text does not (display text "HireHop"). -/
def markerOnlyItem : Item :=
  { id := 900
    name := "Job row"
    column_values :=
      [ { id := "link", text := some "HireHop link",
          value := .parsed { url := some "https://myhirehop.com/job.php?id=13422",
                             text := some "HireHop" } },
        { id := "text_mm07fcs", text := some "13422" } ] }

/-- The webhook request delivering a change of the link column for that
item. -/
def markerOnlyRequest : Request :=
  { httpMethod := "POST",
    body := .parsed none (some { pulseId := some 900, columnId := some "link",
                                 boardId := some 2431480012 }) }

/-- Counterexample item for C3: a Quotes-and-Hires row whose text1/text6
already hold exactly the mirrored client email and name. -/
def qhAlreadyCorrectItem : Item :=
  { id := 4242
    name := "Quote row"
    column_values :=
      [ { id := "mirror_14", display_value := some (some "alice@example.com") },
        { id := "mirror_145", display_value := some (some "Alice Example") },
        { id := "text1", text := some "alice@example.com" },
        { id := "text6", text := some "Alice Example" } ] }

/-- The webhook request delivering a connect_boards7 change for that
item. -/
def qhRequest : Request :=
  { httpMethod := "POST",
    body := .parsed none (some { pulseId := some 4242,
                                 columnId := some "connect_boards7",
                                 boardId := some 2431480012 }) }

/-- A concrete date-copy item: source date set, blank status, empty
target. -/
def dateCopyItem : Item :=
  { id := 510
    name := "Hire row"
    column_values :=
      [ { id := "date_mkzzmse7", text := some "2025-06-10",
          value := .parsed { date := some "2025-06-10" } },
        { id := "dup__of_vehicle_" },
        { id := "dup__of_hire_starts" } ] }

/-- The webhook event delivering the source-date change for that item. -/
def dateCopyEvent : WebhookEvent :=
  { pulseId := some 510, columnId := some "date_mkzzmse7", boardId := some 2431480012 }

/-- Two concrete pages of two items each, as delivered by the cursor
chain. -/
def twoPages : List (List Item) :=
  [ [ { id := 1 }, { id := 2 } ], [ { id := 3 }, { id := 4 } ] ]

lemma daysInMonth_pos (y m : Nat) : 1 ≤ daysInMonth y m := by
  unfold daysInMonth; split_ifs <;> omega

lemma daysInMonth_le (y m : Nat) : daysInMonth y m ≤ 31 := by
  unfold daysInMonth; split_ifs <;> omega

lemma daysInMonth_december (y : Nat) : daysInMonth y 12 = 31 := by
  simp [daysInMonth]

lemma CalDate.eq_of : ∀ a b : CalDate, a.y = b.y → a.m = b.m → a.d = b.d → a = b
  | ⟨_, _, _⟩, ⟨_, _, _⟩, h1, h2, h3 => by
    dsimp only at h1 h2 h3
    rw [h1, h2, h3]

theorem nextDay_prevDay : ∀ c : CalDate, ValidDate c → nextDay (prevDay c) = c
  | ⟨y, m, d⟩, ⟨hy, hm1, hm2, hd1, hd2⟩ => by
    dsimp only at hy hm1 hm2 hd1 hd2
    unfold prevDay
    dsimp only
    split_ifs with h1 h2
    · unfold nextDay
      dsimp only
      rw [if_pos (by omega)]
      exact CalDate.eq_of _ _ (by dsimp only <;> omega) (by dsimp only <;> omega)
        (by dsimp only <;> omega)
    · unfold nextDay
      dsimp only
      rw [if_neg (by omega), if_pos (by omega)]
      exact CalDate.eq_of _ _ (by dsimp only <;> omega) (by dsimp only <;> omega)
        (by dsimp only <;> omega)
    · unfold nextDay
      dsimp only
      rw [daysInMonth_december, if_neg (by omega), if_neg (by omega)]
      exact CalDate.eq_of _ _ (by dsimp only <;> omega) (by dsimp only <;> omega)
        (by dsimp only <;> omega)

theorem prevDay_nextDay : ∀ c : CalDate, ValidDate c → prevDay (nextDay c) = c
  | ⟨y, m, d⟩, ⟨hy, hm1, hm2, hd1, hd2⟩ => by
    dsimp only at hy hm1 hm2 hd1 hd2
    unfold nextDay
    dsimp only
    split_ifs with h1 h2
    · unfold prevDay
      dsimp only
      rw [if_pos (by omega)]
      exact CalDate.eq_of _ _ (by dsimp only <;> omega) (by dsimp only <;> omega)
        (by dsimp only <;> omega)
    · unfold prevDay
      dsimp only
      rw [if_neg (by omega), if_pos (by omega)]
      refine CalDate.eq_of _ _ (by dsimp only <;> omega) (by dsimp only <;> omega) ?_
      dsimp only
      rw [Nat.add_sub_cancel]
      omega
    · unfold prevDay
      dsimp only
      rw [if_neg (by omega), if_neg (by omega)]
      have hm : m = 12 := by omega
      subst hm
      rw [daysInMonth_december] at hd2 h1
      exact CalDate.eq_of _ _ (by dsimp only <;> omega) (by dsimp only <;> omega)
        (by dsimp only <;> omega)

lemma validDate_prevDay : ∀ c : CalDate, ValidDate c → 2 ≤ c.y → ValidDate (prevDay c)
  | ⟨y, m, d⟩, ⟨hy, hm1, hm2, hd1, hd2⟩, hy2 => by
    dsimp only at hy hm1 hm2 hd1 hd2 hy2
    unfold prevDay
    dsimp only
    split_ifs with h1 h2
    · exact ⟨by dsimp only; omega, by dsimp only; omega, by dsimp only; omega,
        by dsimp only; omega, by dsimp only; omega⟩
    · refine ⟨by dsimp only; omega, by dsimp only; omega, by dsimp only; omega,
        by dsimp only; exact daysInMonth_pos _ _, by dsimp only; exact le_refl _⟩
    · refine ⟨by dsimp only; omega, by dsimp only; omega, by dsimp only; omega,
        by dsimp only; omega, by dsimp only; rw [daysInMonth_december]⟩

lemma validDate_nextDay : ∀ c : CalDate, ValidDate c → ValidDate (nextDay c)
  | ⟨y, m, d⟩, ⟨hy, hm1, hm2, hd1, hd2⟩ => by
    dsimp only at hy hm1 hm2 hd1 hd2
    unfold nextDay
    dsimp only
    split_ifs with h1 h2
    · exact ⟨by dsimp only; omega, by dsimp only; omega, by dsimp only; omega,
        by dsimp only; omega, by dsimp only; omega⟩
    · exact ⟨by dsimp only; omega, by dsimp only; omega, by dsimp only; omega,
        by dsimp only; omega, by dsimp only; exact daysInMonth_pos _ _⟩
    · exact ⟨by dsimp only; omega, by dsimp only; omega, by dsimp only; omega,
        by dsimp only; omega, by dsimp only; exact daysInMonth_pos _ _⟩

lemma prevDay_y_bounds : ∀ c : CalDate, c.y - 1 ≤ (prevDay c).y ∧ (prevDay c).y ≤ c.y
  | ⟨y, m, d⟩ => by
    unfold prevDay
    dsimp only
    split_ifs <;> exact ⟨by dsimp only; omega, by dsimp only; omega⟩

lemma nextDay_y_bounds : ∀ c : CalDate, c.y ≤ (nextDay c).y ∧ (nextDay c).y ≤ c.y + 1
  | ⟨y, m, d⟩ => by
    unfold nextDay
    dsimp only
    split_ifs <;> exact ⟨by dsimp only; omega, by dsimp only; omega⟩

lemma normalizeOverflow_valid (c : CalDate) (h : c.d ≤ daysInMonth c.y c.m) :
    normalizeOverflow c = c := by
  unfold normalizeOverflow; rw [if_pos h]

lemma digitChar_isDigit (k : Nat) (hk : k < 10) : (Nat.digitChar k).isDigit = true := by
  interval_cases k <;> decide

lemma digitVal_digitChar (k : Nat) (hk : k < 10) : digitVal (Nat.digitChar k) = k := by
  interval_cases k <;> decide

lemma string_mk_append (a b : List Char) :
    String.mk a ++ String.mk b = String.mk (a ++ b) := rfl

/-- Parsing a formatted valid date with a four-digit year recovers exactly
its components. -/
lemma parseDateFixed_formatDate (c : CalDate) (h : ValidDate c)
    (hy1 : 1000 ≤ c.y) (hy2 : c.y ≤ 9999) : parseDateFixed (formatDate c) = some c := by
  obtain ⟨hy, hm1, hm2, hd1, hd2⟩ := h
  have hd31 : c.d ≤ 31 := le_trans hd2 (daysInMonth_le _ _)
  unfold formatDate parseDateFixed year4Chars pad2Chars
  simp only [List.cons_append, List.nil_append, String.data]
  rw [if_pos ?digits]
  case digits =>
    refine ⟨?_, ?_, ?_, ?_, ?_, ?_, ?_, ?_⟩ <;> exact digitChar_isDigit _ (by omega)
  have e1 : digitVal (Nat.digitChar (c.y / 1000 % 10)) = c.y / 1000 % 10 :=
    digitVal_digitChar _ (by omega)
  have e2 : digitVal (Nat.digitChar (c.y / 100 % 10)) = c.y / 100 % 10 :=
    digitVal_digitChar _ (by omega)
  have e3 : digitVal (Nat.digitChar (c.y / 10 % 10)) = c.y / 10 % 10 :=
    digitVal_digitChar _ (by omega)
  have e4 : digitVal (Nat.digitChar (c.y % 10)) = c.y % 10 :=
    digitVal_digitChar _ (by omega)
  have e5 : digitVal (Nat.digitChar (c.m / 10 % 10)) = c.m / 10 % 10 :=
    digitVal_digitChar _ (by omega)
  have e6 : digitVal (Nat.digitChar (c.m % 10)) = c.m % 10 :=
    digitVal_digitChar _ (by omega)
  have e7 : digitVal (Nat.digitChar (c.d / 10 % 10)) = c.d / 10 % 10 :=
    digitVal_digitChar _ (by omega)
  have e8 : digitVal (Nat.digitChar (c.d % 10)) = c.d % 10 :=
    digitVal_digitChar _ (by omega)
  rw [e1, e2, e3, e4, e5, e6, e7, e8]
  rw [if_pos (by omega)]
  simp only [Option.some.injEq]
  exact CalDate.eq_of _ _ (by dsimp only <;> omega) (by dsimp only <;> omega)
    (by dsimp only <;> omega)


lemma subtractOneDay_formatDate (c : CalDate) (h : ValidDate c)
    (hy1 : 1000 ≤ c.y) (hy2 : c.y ≤ 9999) :
    subtractOneDay (formatDate c) = formatDate (prevDay c) := by
  unfold subtractOneDay
  rw [parseDateFixed_formatDate c h hy1 hy2]
  dsimp only
  rw [normalizeOverflow_valid c h.2.2.2.2]

lemma addOneDay_formatDate (c : CalDate) (h : ValidDate c)
    (hy1 : 1000 ≤ c.y) (hy2 : c.y ≤ 9999) :
    addOneDay (formatDate c) = formatDate (nextDay c) := by
  unfold addOneDay
  rw [parseDateFixed_formatDate c h hy1 hy2]
  dsimp only
  rw [normalizeOverflow_valid c h.2.2.2.2]

lemma formatDate_ne_empty (c : CalDate) : formatDate c ≠ "" := by
  unfold formatDate year4Chars pad2Chars
  intro hcontra
  have hdata := congrArg String.data hcontra
  simp at hdata

lemma subtractOneDay_ne_empty (s : String) : subtractOneDay s ≠ "" := by
  unfold subtractOneDay
  match hp : parseDateFixed s with
  | some c => exact formatDate_ne_empty _
  | none => decide

lemma addOneDay_ne_empty (s : String) : addOneDay s ≠ "" := by
  unfold addOneDay
  match hp : parseDateFixed s with
  | some c => exact formatDate_ne_empty _
  | none => decide

lemma optText_ne_some_empty (o : Option String) : optText o ≠ some "" := by
  match o with
  | none => simp [optText]
  | some s => by_cases hs : s = "" <;> simp [optText, hs]

lemma getColumnValue_ne_some_empty (cvs : List ColumnValue) (colId : String) :
    getColumnValue cvs colId ≠ some "" := by
  unfold getColumnValue
  cases hfind : cvs.find? (fun col => col.id == colId) with
  | none => simp
  | some column =>
    dsimp only
    cases hval : column.value with
    | noValue => exact optText_ne_some_empty _
    | malformed => exact optText_ne_some_empty _
    | parsed parsed =>
      dsimp only
      cases hdate : parsed.date with
      | none => exact optText_ne_some_empty _
      | some d =>
        dsimp only
        by_cases hd : d = ""
        · rw [if_pos hd]; exact optText_ne_some_empty _
        · rw [if_neg hd]; simp [hd]

lemma applyColSetting_id (st : ColSetting) (c : ColumnValue) :
    (applyColSetting st c).id = c.id := by
  cases st <;> rfl

lemma find?_setColumn_self : ∀ (cvs : List ColumnValue) (colId : String) (st : ColSetting),
    (setColumn cvs colId st).find? (fun c => c.id == colId) =
      (cvs.find? (fun c => c.id == colId)).map (applyColSetting st)
  | [], _, _ => rfl
  | c :: rest, colId, st => by
    unfold setColumn
    simp only [List.map_cons, List.find?_cons]
    by_cases hid : c.id = colId
    · rw [if_pos hid]
      have h1 : ((applyColSetting st c).id == colId) = true := by
        rw [applyColSetting_id]; exact beq_iff_eq.mpr hid
      have h2 : (c.id == colId) = true := beq_iff_eq.mpr hid
      rw [h1, h2]
      rfl
    · rw [if_neg hid]
      have h2 : (c.id == colId) = false := beq_eq_false_iff_ne.mpr hid
      rw [h2]
      exact find?_setColumn_self rest colId st

lemma find?_setColumn_ne : ∀ (cvs : List ColumnValue) (colId x : String)
    (st : ColSetting), x ≠ colId →
    (setColumn cvs colId st).find? (fun c => c.id == x) =
      cvs.find? (fun c => c.id == x)
  | [], _, _, _, _ => rfl
  | c :: rest, colId, x, st, hne => by
    unfold setColumn
    simp only [List.map_cons, List.find?_cons]
    by_cases hid : c.id = colId
    · have hx : (c.id == x) = false := by
        refine beq_eq_false_iff_ne.mpr ?_
        intro hcx
        exact hne (hcx ▸ hid ▸ rfl)
      have hx2 : ((if c.id = colId then applyColSetting st c else c).id == x) = false := by
        rw [if_pos hid, applyColSetting_id]; exact hx
      rw [hx2, hx]
      exact find?_setColumn_ne rest colId x st hne
    · have hsame : (if c.id = colId then applyColSetting st c else c) = c := if_neg hid
      rw [hsame]
      by_cases hx : c.id = x
      · rw [beq_iff_eq.mpr hx]
      · rw [beq_eq_false_iff_ne.mpr hx]
        exact find?_setColumn_ne rest colId x st hne

lemma getColumnValue_setColumn_ne (cvs : List ColumnValue) (colId x : String)
    (st : ColSetting) (h : x ≠ colId) :
    getColumnValue (setColumn cvs colId st) x = getColumnValue cvs x := by
  unfold getColumnValue
  rw [find?_setColumn_ne cvs colId x st h]

lemma getStatusLabel_setColumn_ne (cvs : List ColumnValue) (colId x : String)
    (st : ColSetting) (h : x ≠ colId) :
    getStatusLabel (setColumn cvs colId st) x = getStatusLabel cvs x := by
  unfold getStatusLabel
  rw [find?_setColumn_ne cvs colId x st h]

lemma getColumnValue_setColumn_dateVal (cvs : List ColumnValue) (colId : String)
    (v : String) (hex : (cvs.find? (fun c => c.id == colId)).isSome = true)
    (hv : v ≠ "") :
    getColumnValue (setColumn cvs colId (.dateVal v)) colId = some v := by
  unfold getColumnValue
  rw [find?_setColumn_self]
  cases hfind : cvs.find? (fun c => c.id == colId) with
  | none => rw [hfind] at hex; simp at hex
  | some column =>
    dsimp only [Option.map_some']
    show (match (applyColSetting (.dateVal v) column).value with
      | RawValue.parsed parsed =>
        match parsed.date with
        | some d =>
          if d = "" then optText (applyColSetting (.dateVal v) column).text else some d
        | none => optText (applyColSetting (.dateVal v) column).text
      | _ => optText (applyColSetting (.dateVal v) column).text) = some v
    dsimp only [applyColSetting]
    rw [if_neg hv]

lemma punctFilter_eq (l : List Char) :
    l.filter (fun c => ¬ (c = '.' ∨ c = ',')) = l.filter (fun c => c ≠ '.' ∧ c ≠ ',') := by
  induction l with
  | nil => rfl
  | cons c rest ih =>
    by_cases h1 : c = '.'
    · simp [List.filter_cons, h1, ih]
    · by_cases h2 : c = ','
      · simp [List.filter_cons, h1, h2, ih]
      · simp [List.filter_cons, h1, h2, ih]

lemma extractFirstName_eq_spec (s : String) : extractFirstName s = firstNameSpec s := by
  unfold extractFirstName firstNameSpec
  by_cases hs : s = ""
  · subst hs
    rfl
  · rw [if_neg hs]
    dsimp only
    generalize wordsOf (trimChars (List.takeWhile (fun c => ¬ isNameSeparator c) s.data)) = ws
    cases ws with
    | nil => rfl
    | cons w rest =>
      dsimp only
      rw [punctFilter_eq]
      simp only [List.headD_cons, List.length_cons]
      by_cases hc : namePrefixes.contains
          (String.mk ((w.map Char.toLower).filter (fun c => c ≠ '.' ∧ c ≠ ',')))
      · rw [if_pos hc]
        cases rest with
        | nil => simp
        | cons w2 t =>
          rw [if_pos (And.intro hc (by simp))]
          simp [List.getD]
      · rw [if_neg hc]
        have hno : ¬ (namePrefixes.contains
            (String.mk ((w.map Char.toLower).filter (fun c => c ≠ '.' ∧ c ≠ ','))) = true ∧
            1 < rest.length + 1) := fun hand => hc hand.1
        rw [if_neg hno]
        have hlen : ¬ (rest.length + 1 = 0) := Nat.succ_ne_zero _
        rw [if_neg hlen]

lemma trimChars_eq_nil (l : List Char) (h : ∀ c ∈ l, c.isWhitespace = true) :
    trimChars l = [] := by
  unfold trimChars
  rw [List.dropWhile_eq_nil_iff.mpr (fun c hc => h c hc)]
  rfl

lemma extractFirstName_whitespace (s : String)
    (h : ∀ c ∈ s.data, c.isWhitespace = true) : extractFirstName s = "" := by
  unfold extractFirstName
  by_cases hs : s = ""
  · rw [if_pos hs]
  · rw [if_neg hs]
    dsimp only
    rw [trimChars_eq_nil _
      (fun c hc => h c ((List.takeWhile_sublist _).subset hc))]
    rfl

lemma dateCopy_dispatch (challenge : Option String) (ev : WebhookEvent)
    (fetched : Option Item)
    (hch : jsTruthyStr challenge = false)
    (hcol : ev.columnId = some SOURCE_DATE_COLUMN ∨ ev.columnId = some VEHICLE_STATUS_COLUMN)
    (hboard : ¬ (jsTruthyInt ev.boardId = true ∧ ev.boardId ≠ some MONDAY_BOARD_ID)) :
    dateCopyHandler ⟨"POST", .parsed challenge (some ev)⟩ fetched =
      (match fetched with
       | none => ⟨500, .fetchFailed, []⟩
       | some item => dateCopyCore item (jsOrInt ev.pulseId ev.itemId)) := by
  unfold dateCopyHandler
  rw [if_neg (by decide : ¬ (("POST" : String) = "OPTIONS"))]
  rw [if_neg (by decide : ¬ (("POST" : String) ≠ "POST"))]
  dsimp only
  rw [hch]
  rw [if_neg (by decide : ¬ (false = true))]
  rw [if_neg (fun hno => hno hcol)]
  rw [if_neg hboard]

lemma crewTransport_dispatch (challenge : Option String) (ev : WebhookEvent)
    (fetched : Option Item)
    (hch : jsTruthyStr challenge = false)
    (hcol : ev.columnId = some SOURCE_LINK_COLUMN)
    (hboard : ¬ (jsTruthyInt ev.boardId = true ∧ ev.boardId ≠ some MONDAY_BOARD_ID)) :
    crewTransportLinkHandler ⟨"POST", .parsed challenge (some ev)⟩ fetched =
      (match fetched with
       | none => ⟨500, .fetchFailed, []⟩
       | some item => crewTransportCore item (jsOrInt ev.pulseId ev.itemId)) := by
  unfold crewTransportLinkHandler
  rw [if_neg (by decide : ¬ (("POST" : String) = "OPTIONS"))]
  rw [if_neg (by decide : ¬ (("POST" : String) ≠ "POST"))]
  dsimp only
  rw [hch]
  rw [if_neg (by decide : ¬ (false = true))]
  rw [hcol]
  rw [if_neg (by simp : ¬ ((some SOURCE_LINK_COLUMN : Option String) ≠ some SOURCE_LINK_COLUMN))]
  rw [if_neg hboard]

lemma qhClientLinked_dispatch (challenge : Option String) (ev : WebhookEvent)
    (fetched : Option Item)
    (hch : jsTruthyStr challenge = false)
    (hcol : ev.columnId = some "connect_boards7")
    (hboard : ¬ (jsTruthyInt ev.boardId = true ∧ ev.boardId ≠ some MONDAY_BOARD_ID)) :
    qhClientLinkedHandler ⟨"POST", .parsed challenge (some ev)⟩ fetched =
      (match fetched with
       | none => ⟨500, .fetchFailed, []⟩
       | some item => qhClientLinkedCore item (jsOrInt ev.pulseId ev.itemId)) := by
  unfold qhClientLinkedHandler
  rw [if_neg (by decide : ¬ (("POST" : String) = "OPTIONS"))]
  rw [if_neg (by decide : ¬ (("POST" : String) ≠ "POST"))]
  dsimp only
  rw [hch]
  rw [if_neg (by decide : ¬ (false = true))]
  rw [hcol]
  rw [if_neg (by simp : ¬ ((some "connect_boards7" : Option String) ≠ some "connect_boards7"))]
  rw [if_neg hboard]

/-- C4: for every valid source date in YYYY-MM-DD form and status label, the
exempt label "Rehearsal" copies the date unchanged; otherwise the webhook
handler derives the date exactly one calendar day earlier and the bulk
migration exactly one calendar day later, by pure noon-UTC calendar
arithmetic: the shifted result is a valid calendar day whose calendar
successor (resp. predecessor) is the source date, so no drift is
possible. -/
theorem dateShift_rule (c : CalDate) (status : Option String)
    (h : ValidDate c) (hy1 : 1000 ≤ c.y) (hy2 : c.y ≤ 9999) :
    (status = some REHEARSAL_LABEL → deriveTargetDate (formatDate c) status = formatDate c) ∧
    (status ≠ some REHEARSAL_LABEL →
      deriveTargetDate (formatDate c) status = formatDate (prevDay c) ∧
      nextDay (prevDay c) = c ∧ ValidDate (prevDay c)) ∧
    (addOneDay (formatDate c) = formatDate (nextDay c) ∧
      prevDay (nextDay c) = c ∧ ValidDate (nextDay c)) := by
  refine ⟨?_, ?_, ?_, ?_, ?_⟩
  · intro hst
    unfold deriveTargetDate
    rw [if_pos hst]
  · intro hst
    unfold deriveTargetDate
    rw [if_neg hst]
    exact ⟨subtractOneDay_formatDate c h hy1 hy2, nextDay_prevDay c h,
      validDate_prevDay c h (by omega)⟩
  · exact addOneDay_formatDate c h hy1 hy2
  · exact prevDay_nextDay c h
  · exact validDate_nextDay c h

/-- Witness for C4 at the DST-transition date 2025-03-30 with a blank
status: the derived target is 2025-03-29, exactly one calendar day
earlier. -/
theorem dateShift_rule_witness :
    ValidDate ⟨2025, 3, 30⟩ ∧ deriveTargetDate "2025-03-30" none = "2025-03-29" := by
  have h := dateShift_rule ⟨2025, 3, 30⟩ none (by decide) (by decide) (by decide)
  refine ⟨by decide, ?_⟩
  have h2 := (h.2.1 (by simp)).1
  have e1 : formatDate ⟨2025, 3, 30⟩ = "2025-03-30" := by decide
  have e2 : formatDate (prevDay ⟨2025, 3, 30⟩) = "2025-03-29" := by decide
  rw [e1, e2] at h2
  exact h2

/-- C9: the bulk migration's addOneDay and the webhook handler's
subtractOneDay are exact inverses on valid calendar dates: at the calendar
level the day successor and predecessor cancel both ways, and at the
string level (four-digit years, away from the 4-digit boundary so both
compositions stay in YYYY form) composing the two string functions is the
identity on the zero-padded YYYY-MM-DD rendering. -/
theorem addOneDay_subtractOneDay_inverse (c : CalDate) (h : ValidDate c) :
    (nextDay (prevDay c) = c ∧ prevDay (nextDay c) = c) ∧
    (1001 ≤ c.y → c.y ≤ 9998 →
      addOneDay (subtractOneDay (formatDate c)) = formatDate c ∧
      subtractOneDay (addOneDay (formatDate c)) = formatDate c) := by
  refine ⟨⟨nextDay_prevDay c h, prevDay_nextDay c h⟩, ?_⟩
  intro hy1 hy2
  have hvp : ValidDate (prevDay c) := validDate_prevDay c h (by omega)
  have hvn : ValidDate (nextDay c) := validDate_nextDay c h
  have hpb := prevDay_y_bounds c
  have hnb := nextDay_y_bounds c
  constructor
  · rw [subtractOneDay_formatDate c h (by omega) (by omega)]
    rw [addOneDay_formatDate (prevDay c) hvp (by omega) (by omega)]
    rw [nextDay_prevDay c h]
  · rw [addOneDay_formatDate c h (by omega) (by omega)]
    rw [subtractOneDay_formatDate (nextDay c) hvn (by omega) (by omega)]
    rw [prevDay_nextDay c h]

/-- Witness for C9 across the 2024 leap-year February boundary. -/
theorem addOneDay_subtractOneDay_inverse_witness :
    ValidDate ⟨2024, 3, 1⟩ ∧
    addOneDay (subtractOneDay "2024-03-01") = "2024-03-01" ∧
    subtractOneDay (addOneDay "2024-03-01") = "2024-03-01" := by
  have h := (addOneDay_subtractOneDay_inverse ⟨2024, 3, 1⟩ (by decide)).2
    (by decide) (by decide)
  have e1 : formatDate ⟨2024, 3, 1⟩ = "2024-03-01" := by decide
  rw [e1] at h
  exact ⟨by decide, h⟩

/-- C7: the first-name extraction agrees everywhere with the
specification-side rule (split on the separator set, keep the first
segment, split into whitespace words, honorific-aware first/second word
choice); whitespace-only input yields the empty string, and the three
documented examples hold. -/
theorem extractFirstName_spec_conformance :
    (∀ s : String, extractFirstName s = firstNameSpec s) ∧
    (∀ s : String, (∀ c ∈ s.data, c.isWhitespace = true) → extractFirstName s = "") ∧
    extractFirstName "Mr Jonathan Wood - Ooosh Tours" = "Jonathan" ∧
    extractFirstName "Acme Corp Ltd" = "Acme" ∧
    extractFirstName "" = "" :=
  ⟨extractFirstName_eq_spec, extractFirstName_whitespace, by decide, by decide, by decide⟩

/-- Witness for C7 on a whitespace-only input. -/
theorem extractFirstName_spec_conformance_witness : extractFirstName "   " = "" :=
  extractFirstName_spec_conformance.2.1 "   " (by decide)

/-- C8: the field extractors are total functions of the column-value list
(embedded as such, so no invocation can raise): a missing column yields the
well-defined empty value none; an absent or unparseable raw payload falls
back to the rendered text (null when that is empty too); and a status
payload carrying an index but no label yields the rendered text, never the
bare number. -/
theorem fieldExtractor_fallbacks (cvs : List ColumnValue) (colId : String) :
    (cvs.find? (fun c => c.id == colId) = none →
      getColumnValue cvs colId = none ∧ getStatusLabel cvs colId = none ∧
      getLinkUrl cvs colId = none ∧ getTextColumnValue cvs colId = none) ∧
    (∀ column, cvs.find? (fun c => c.id == colId) = some column →
      ((column.value = .noValue ∨ column.value = .malformed) →
        getColumnValue cvs colId = optText column.text ∧
        getStatusLabel cvs colId = optText column.text ∧
        getLinkUrl cvs colId = optText column.text ∧
        getTextColumnValue cvs colId = optText column.text) ∧
      (column.value = .noValue → column.text = none →
        getColumnValue cvs colId = none ∧ getStatusLabel cvs colId = none ∧
        getLinkUrl cvs colId = none ∧ getTextColumnValue cvs colId = none) ∧
      (∀ p i, column.value = .parsed p → p.label = none → p.index = some i →
        getStatusLabel cvs colId = optText column.text)) := by
  constructor
  · intro hnone
    unfold getColumnValue getStatusLabel getLinkUrl getTextColumnValue
    rw [hnone]
    exact ⟨rfl, rfl, rfl, rfl⟩
  · intro column hsome
    refine ⟨?_, ?_, ?_⟩
    · intro hval
      unfold getColumnValue getStatusLabel getLinkUrl getTextColumnValue
      rw [hsome]
      dsimp only
      cases hval with
      | inl h => rw [h]; exact ⟨rfl, rfl, rfl, rfl⟩
      | inr h => rw [h]; exact ⟨rfl, rfl, rfl, rfl⟩
    · intro hval htext
      unfold getColumnValue getStatusLabel getLinkUrl getTextColumnValue
      rw [hsome]
      dsimp only
      rw [hval, htext]
      exact ⟨rfl, rfl, rfl, rfl⟩
    · intro p i hval hlabel hindex
      unfold getStatusLabel
      rw [hsome]
      dsimp only
      rw [hval]
      dsimp only
      rw [hlabel]
      dsimp only
      rw [hindex]
      rfl

/-- Witness for C8: a status column whose payload has a numeric index but
no label yields the rendered text "Confirmed". -/
theorem fieldExtractor_fallbacks_witness :
    getStatusLabel
      [{ id := "status6", text := some "Confirmed",
         value := .parsed { index := some 3 } }] "status6" = some "Confirmed" := by
  have h := (fieldExtractor_fallbacks
    [{ id := "status6", text := some "Confirmed",
       value := .parsed { index := some 3 } }] "status6").2
    { id := "status6", text := some "Confirmed", value := .parsed { index := some 3 } }
    (by decide)
  have h2 := h.2.2 { index := some 3 } 3 rfl rfl rfl
  rw [h2]
  decide

lemma dateCopyCore_outcome_ne_board (item : Item) (w : Option Int) :
    (dateCopyCore item w).outcome ≠ .boardNotMonitored := by
  unfold dateCopyCore
  cases h : getColumnValue item.column_values SOURCE_DATE_COLUMN with
  | none => simp
  | some sd =>
    dsimp only
    split_ifs <;> simp

lemma crewTransportCore_outcome_ne_board (item : Item) (w : Option Int) :
    (crewTransportCore item w).outcome ≠ .boardNotMonitored := by
  unfold crewTransportCore
  cases h : getLinkUrl item.column_values SOURCE_LINK_COLUMN with
  | none => simp
  | some u =>
    dsimp only
    cases hj : extractJobId u with
    | none => simp
    | some j =>
      dsimp only
      split_ifs <;> simp

/-- C10: in both webhook handlers, once a monitored column change with an
event is being processed, the board filter rejects the event (the
board-not-monitored exit) exactly when a boardId is present, truthy, and
different from the configured board; an event with a missing or falsy
boardId passes the filter and is processed. -/
theorem boardFilter_rejects_iff (challenge : Option String)
    (ev1 ev2 : WebhookEvent) (fetched : Option Item)
    (hch : jsTruthyStr challenge = false)
    (hcol1 : ev1.columnId = some SOURCE_DATE_COLUMN)
    (hcol2 : ev2.columnId = some SOURCE_LINK_COLUMN) :
    ((dateCopyHandler ⟨"POST", .parsed challenge (some ev1)⟩ fetched).outcome =
        .boardNotMonitored ↔
      (jsTruthyInt ev1.boardId = true ∧ ev1.boardId ≠ some MONDAY_BOARD_ID)) ∧
    ((crewTransportLinkHandler ⟨"POST", .parsed challenge (some ev2)⟩ fetched).outcome =
        .boardNotMonitored ↔
      (jsTruthyInt ev2.boardId = true ∧ ev2.boardId ≠ some MONDAY_BOARD_ID)) := by
  constructor
  · by_cases hb : jsTruthyInt ev1.boardId = true ∧ ev1.boardId ≠ some MONDAY_BOARD_ID
    · unfold dateCopyHandler
      rw [if_neg (by decide : ¬ (("POST" : String) = "OPTIONS"))]
      rw [if_neg (by decide : ¬ (("POST" : String) ≠ "POST"))]
      dsimp only
      rw [hch]
      rw [if_neg (by decide : ¬ (false = true))]
      rw [if_neg (fun hno => hno (Or.inl hcol1))]
      rw [if_pos hb]
      simpa using hb
    · rw [dateCopy_dispatch challenge ev1 fetched hch (Or.inl hcol1) hb]
      cases fetched with
      | none => simpa using hb
      | some item =>
        dsimp only
        constructor
        · intro hcontra
          exact absurd hcontra (dateCopyCore_outcome_ne_board item _)
        · intro hcontra
          exact absurd hcontra hb
  · by_cases hb : jsTruthyInt ev2.boardId = true ∧ ev2.boardId ≠ some MONDAY_BOARD_ID
    · unfold crewTransportLinkHandler
      rw [if_neg (by decide : ¬ (("POST" : String) = "OPTIONS"))]
      rw [if_neg (by decide : ¬ (("POST" : String) ≠ "POST"))]
      dsimp only
      rw [hch]
      rw [if_neg (by decide : ¬ (false = true))]
      rw [hcol2]
      rw [if_neg (by simp :
        ¬ ((some SOURCE_LINK_COLUMN : Option String) ≠ some SOURCE_LINK_COLUMN))]
      rw [if_pos hb]
      simpa using hb
    · rw [crewTransport_dispatch challenge ev2 fetched hch hcol2 hb]
      cases fetched with
      | none => simpa using hb
      | some item =>
        dsimp only
        constructor
        · intro hcontra
          exact absurd hcontra (crewTransportCore_outcome_ne_board item _)
        · intro hcontra
          exact absurd hcontra hb

/-- Witness for C10: an event that carries no boardId at all is not
rejected by the board filter of either handler. -/
theorem boardFilter_rejects_iff_witness :
    ((dateCopyHandler
        ⟨"POST", .parsed none (some { columnId := some SOURCE_DATE_COLUMN })⟩
        none).outcome = .boardNotMonitored ↔
      (jsTruthyInt none = true ∧ (none : Option Int) ≠ some MONDAY_BOARD_ID)) ∧
    ((crewTransportLinkHandler
        ⟨"POST", .parsed none (some { columnId := some SOURCE_LINK_COLUMN })⟩
        none).outcome = .boardNotMonitored ↔
      (jsTruthyInt none = true ∧ (none : Option Int) ≠ some MONDAY_BOARD_ID)) :=
  boardFilter_rejects_iff none { columnId := some SOURCE_DATE_COLUMN }
    { columnId := some SOURCE_LINK_COLUMN } none (by decide) rfl rfl

/-- C2: once the crew-transport handler has extracted a job id, it skips
with the loop-risk response and no mutation exactly when BOTH the source
link's display text and the text7 marker already equal the job id; when
either differs it issues the single three-column write. -/
theorem crewGuard_skip_iff (challenge : Option String) (ev : WebhookEvent)
    (item : Item) (u j : String)
    (hch : jsTruthyStr challenge = false)
    (hcol : ev.columnId = some SOURCE_LINK_COLUMN)
    (hboard : ¬ (jsTruthyInt ev.boardId = true ∧ ev.boardId ≠ some MONDAY_BOARD_ID))
    (hurl : getLinkUrl item.column_values SOURCE_LINK_COLUMN = some u)
    (hjob : extractJobId u = some j) :
    ((getLinkDisplayText item.column_values SOURCE_LINK_COLUMN = some j ∧
        getTextColumnValue item.column_values TARGET_TEXT_COLUMN = some j) →
      crewTransportLinkHandler ⟨"POST", .parsed challenge (some ev)⟩ (some item) =
        ⟨200, .loopRiskSkip, []⟩) ∧
    (¬ (getLinkDisplayText item.column_values SOURCE_LINK_COLUMN = some j ∧
        getTextColumnValue item.column_values TARGET_TEXT_COLUMN = some j) →
      crewTransportLinkHandler ⟨"POST", .parsed challenge (some ev)⟩ (some item) =
        ⟨200, .updated, [⟨jsOrInt ev.pulseId ev.itemId,
          [(TARGET_LINK_COLUMN, .linkVal (PORTAL_BASE_URL ++ j) DISPLAY_TEXT),
           (TARGET_TEXT_COLUMN, .textVal j),
           (SOURCE_LINK_COLUMN, .linkVal u j)]⟩]⟩) := by
  rw [crewTransport_dispatch challenge ev (some item) hch hcol hboard]
  dsimp only
  unfold crewTransportCore
  rw [hurl]
  dsimp only
  rw [hjob]
  dsimp only
  constructor
  · intro hboth
    rw [if_pos hboth]
  · intro hnot
    rw [if_neg hnot]

/-- Witness for C2: with display text and text7 both already equal to the
job id, the invocation is the loop-risk skip with no write. -/
theorem crewGuard_skip_iff_witness :
    crewTransportLinkHandler
      ⟨"POST", .parsed none (some { pulseId := some 900, columnId := some "link",
                                    boardId := some 2431480012 })⟩
      (some { id := 900, name := "Job row",
              column_values :=
                [ { id := "link", text := some "13422",
                    value := .parsed { url := some "https://myhirehop.com/job.php?id=13422",
                                       text := some "13422" } },
                  { id := "text_mm07fcs", text := some "13422" } ] }) =
      ⟨200, .loopRiskSkip, []⟩ := by
  exact (crewGuard_skip_iff none
    { pulseId := some 900, columnId := some "link", boardId := some 2431480012 }
    { id := 900, name := "Job row",
      column_values :=
        [ { id := "link", text := some "13422",
            value := .parsed { url := some "https://myhirehop.com/job.php?id=13422",
                               text := some "13422" } },
          { id := "text_mm07fcs", text := some "13422" } ] }
    "https://myhirehop.com/job.php?id=13422" "13422"
    (by decide) rfl (by decide) (by decide) (by decide)).1 (by decide)

/-- Counterexample to C1 as stated: an invocation whose secondary marker
(text_mm07fcs) already equals the derived job id 13422 but whose primary
display text differs does NOT short-circuit to the loop-risk outcome — it
performs the full write. -/
theorem crewGuard_marker_alone_not_sufficient :
    getTextColumnValue markerOnlyItem.column_values TARGET_TEXT_COLUMN = some "13422" ∧
    getLinkDisplayText markerOnlyItem.column_values SOURCE_LINK_COLUMN ≠ some "13422" ∧
    (crewTransportLinkHandler markerOnlyRequest (some markerOnlyItem)).outcome ≠
      .loopRiskSkip ∧
    (crewTransportLinkHandler markerOnlyRequest (some markerOnlyItem)).writes ≠ [] := by
  decide

/-- C1 amended: with the secondary marker already equal to the derived job
id, the invocation short-circuits to the loop-risk outcome with no write
only when the primary display text also equals the job id; when the
display text differs, the handler performs the full three-column write. -/
theorem crewGuard_marker_needs_display (challenge : Option String) (ev : WebhookEvent)
    (item : Item) (u j : String)
    (hch : jsTruthyStr challenge = false)
    (hcol : ev.columnId = some SOURCE_LINK_COLUMN)
    (hboard : ¬ (jsTruthyInt ev.boardId = true ∧ ev.boardId ≠ some MONDAY_BOARD_ID))
    (hurl : getLinkUrl item.column_values SOURCE_LINK_COLUMN = some u)
    (hjob : extractJobId u = some j)
    (hmarker : getTextColumnValue item.column_values TARGET_TEXT_COLUMN = some j) :
    (getLinkDisplayText item.column_values SOURCE_LINK_COLUMN = some j →
      crewTransportLinkHandler ⟨"POST", .parsed challenge (some ev)⟩ (some item) =
        ⟨200, .loopRiskSkip, []⟩) ∧
    (getLinkDisplayText item.column_values SOURCE_LINK_COLUMN ≠ some j →
      (crewTransportLinkHandler ⟨"POST", .parsed challenge (some ev)⟩
          (some item)).outcome = .updated ∧
      (crewTransportLinkHandler ⟨"POST", .parsed challenge (some ev)⟩
          (some item)).writes ≠ []) := by
  rw [crewTransport_dispatch challenge ev (some item) hch hcol hboard]
  dsimp only
  unfold crewTransportCore
  rw [hurl]
  dsimp only
  rw [hjob]
  dsimp only
  constructor
  · intro hdisp
    rw [if_pos ⟨hdisp, hmarker⟩]
  · intro hdisp
    rw [if_neg (fun hboth => hdisp hboth.1)]
    exact ⟨rfl, by simp⟩

/-- Witness for the amended C1: the marker-only invocation performs the
write. -/
theorem crewGuard_marker_needs_display_witness :
    (crewTransportLinkHandler markerOnlyRequest (some markerOnlyItem)).outcome =
      .updated ∧
    (crewTransportLinkHandler markerOnlyRequest (some markerOnlyItem)).writes ≠ [] :=
  (crewGuard_marker_needs_display none
    { pulseId := some 900, columnId := some "link", boardId := some 2431480012 }
    markerOnlyItem "https://myhirehop.com/job.php?id=13422" "13422"
    (by decide) rfl (by decide) (by decide) (by decide) (by decide)).2 (by decide)

/-- Counterexample to C5 as stated: a POST whose body fails JSON parsing is
caught by the handler's outer catch and answered with HTTP 500, not 200. -/
theorem malformed_body_returns_500 :
    (dateCopyHandler { httpMethod := "POST", body := .malformed } none).statusCode
        = 500 ∧
    (dateCopyHandler { httpMethod := "POST", body := .malformed } none).statusCode
        ≠ 200 := by
  decide

/-- C5 amended: a POST parsing to a payload with no event field is a benign
no-op answered with HTTP 200 and no mutation; a POST whose body is
unparseable JSON instead reaches the outer catch and is answered with HTTP
500. -/
theorem malformed_and_missing_event (fetched : Option Item) (challenge : Option String)
    (hch : jsTruthyStr challenge = false) :
    dateCopyHandler { httpMethod := "POST", body := .malformed } fetched =
      { statusCode := 500, outcome := .parseError, writes := [] } ∧
    dateCopyHandler { httpMethod := "POST", body := .parsed challenge none } fetched =
      { statusCode := 200, outcome := .noEvent, writes := [] } := by
  constructor
  · rfl
  · unfold dateCopyHandler
    rw [if_neg (by decide : ¬ (("POST" : String) = "OPTIONS"))]
    rw [if_neg (by decide : ¬ (("POST" : String) ≠ "POST"))]
    dsimp only
    rw [hch]
    rw [if_neg (by decide : ¬ (false = true))]

/-- Witness for the amended C5 at concrete inputs. -/
theorem malformed_and_missing_event_witness :
    dateCopyHandler { httpMethod := "POST", body := .malformed } none =
      { statusCode := 500, outcome := .parseError, writes := [] } ∧
    dateCopyHandler { httpMethod := "POST", body := .parsed none none } none =
      { statusCode := 200, outcome := .noEvent, writes := [] } :=
  malformed_and_missing_event none none (by decide)

lemma deriveTargetDate_ne_empty (sd : String) (status : Option String)
    (hsd : sd ≠ "") : deriveTargetDate sd status ≠ "" := by
  unfold deriveTargetDate
  split_ifs
  · exact hsd
  · exact subtractOneDay_ne_empty sd

/-- Counterexample to C3 as stated: the qh-client-linked handler derives
and writes column values but has no Convergence Guard — running it twice
with no external change still performs a write on the second run (indeed
the first run already rewrites values equal to those present). -/
theorem qhClientLinked_second_run_still_writes :
    (qhClientLinkedHandler qhRequest
      (some (applyWriteOps qhAlreadyCorrectItem
        (qhClientLinkedHandler qhRequest (some qhAlreadyCorrectItem)).writes))).writes
      ≠ [] ∧
    (qhClientLinkedHandler qhRequest (some qhAlreadyCorrectItem)).writes ≠ [] := by
  decide

/-- C3 amended: the date-copy handler satisfies run-twice idempotence —
with the source date set and the target differing from the derived value,
the first run issues exactly the one-column write and the second run on the
persisted state performs no write and reports no update needed.  The
property does not extend to every deriving handler: every processed
qh-client-linked invocation issues its write unconditionally. -/
theorem convergence_idempotence_per_handler
    (challenge : Option String) (ev : WebhookEvent) (item : Item) (sd : String)
    (hch : jsTruthyStr challenge = false)
    (hcol : ev.columnId = some SOURCE_DATE_COLUMN ∨ ev.columnId = some VEHICLE_STATUS_COLUMN)
    (hboard : ¬ (jsTruthyInt ev.boardId = true ∧ ev.boardId ≠ some MONDAY_BOARD_ID))
    (hsd : getColumnValue item.column_values SOURCE_DATE_COLUMN = some sd)
    (hneq : getColumnValue item.column_values TARGET_DATE_COLUMN ≠
      some (deriveTargetDate sd (getStatusLabel item.column_values VEHICLE_STATUS_COLUMN)))
    (hex : (item.column_values.find? (fun c => c.id == TARGET_DATE_COLUMN)).isSome = true) :
    dateCopyHandler ⟨"POST", .parsed challenge (some ev)⟩ (some item) =
      ⟨200, .updated, [⟨jsOrInt ev.pulseId ev.itemId, [(TARGET_DATE_COLUMN,
        .dateVal (deriveTargetDate sd
          (getStatusLabel item.column_values VEHICLE_STATUS_COLUMN)))]⟩]⟩ ∧
    dateCopyHandler ⟨"POST", .parsed challenge (some ev)⟩
      (some (applyWriteOps item
        (dateCopyHandler ⟨"POST", .parsed challenge (some ev)⟩ (some item)).writes)) =
      ⟨200, .noUpdateNeeded, []⟩ ∧
    (∀ (challenge2 : Option String) (ev2 : WebhookEvent) (item2 : Item),
      jsTruthyStr challenge2 = false → ev2.columnId = some "connect_boards7" →
      ¬ (jsTruthyInt ev2.boardId = true ∧ ev2.boardId ≠ some MONDAY_BOARD_ID) →
      (qhClientLinkedHandler ⟨"POST", .parsed challenge2 (some ev2)⟩
        (some item2)).writes ≠ []) := by
  have hsdne : sd ≠ "" := by
    intro h0
    exact getColumnValue_ne_some_empty item.column_values SOURCE_DATE_COLUMN (h0 ▸ hsd)
  have htne : deriveTargetDate sd
      (getStatusLabel item.column_values VEHICLE_STATUS_COLUMN) ≠ "" :=
    deriveTargetDate_ne_empty _ _ hsdne
  have hrun1 : dateCopyHandler ⟨"POST", .parsed challenge (some ev)⟩ (some item) =
      ⟨200, .updated, [⟨jsOrInt ev.pulseId ev.itemId, [(TARGET_DATE_COLUMN,
        .dateVal (deriveTargetDate sd
          (getStatusLabel item.column_values VEHICLE_STATUS_COLUMN)))]⟩]⟩ := by
    rw [dateCopy_dispatch challenge ev (some item) hch hcol hboard]
    dsimp only
    unfold dateCopyCore
    rw [hsd]
    dsimp only
    rw [if_neg hneq]
  refine ⟨hrun1, ?_, ?_⟩
  · rw [hrun1]
    dsimp only
    rw [dateCopy_dispatch challenge ev _ hch hcol hboard]
    dsimp only
    have happ : applyWriteOps item [⟨jsOrInt ev.pulseId ev.itemId, [(TARGET_DATE_COLUMN,
        ColSetting.dateVal (deriveTargetDate sd
          (getStatusLabel item.column_values VEHICLE_STATUS_COLUMN)))]⟩] =
        ⟨item.id, item.name, setColumn item.column_values TARGET_DATE_COLUMN
          (ColSetting.dateVal (deriveTargetDate sd
            (getStatusLabel item.column_values VEHICLE_STATUS_COLUMN)))⟩ := rfl
    rw [happ]
    unfold dateCopyCore
    dsimp only
    rw [getColumnValue_setColumn_ne _ _ _ _
      (by decide : SOURCE_DATE_COLUMN ≠ TARGET_DATE_COLUMN)]
    rw [hsd]
    dsimp only
    rw [getStatusLabel_setColumn_ne _ _ _ _
      (by decide : VEHICLE_STATUS_COLUMN ≠ TARGET_DATE_COLUMN)]
    rw [getColumnValue_setColumn_dateVal _ _ _ hex htne]
    rw [if_pos rfl]
  · intro challenge2 ev2 item2 hch2 hcol2 hboard2
    rw [qhClientLinked_dispatch challenge2 ev2 (some item2) hch2 hcol2 hboard2]
    dsimp only
    unfold qhClientLinkedCore
    simp

/-- Witness for the amended C3: after the first run's write is persisted,
the second invocation performs no write and reports no update needed. -/
theorem convergence_idempotence_per_handler_witness :
    dateCopyHandler ⟨"POST", .parsed none (some dateCopyEvent)⟩
      (some (applyWriteOps dateCopyItem
        (dateCopyHandler ⟨"POST", .parsed none (some dateCopyEvent)⟩
          (some dateCopyItem)).writes)) =
      { statusCode := 200, outcome := .noUpdateNeeded, writes := [] } :=
  (convergence_idempotence_per_handler none dateCopyEvent dateCopyItem "2025-06-10"
    (by decide) (Or.inl (by decide)) (by decide) (by decide) (by decide) (by decide)).2.1

lemma bulkAnalyzeStep_totalItems (a : BulkAnalysis) (item : Item) :
    (bulkAnalyzeStep a item).totalItems = a.totalItems := by
  unfold bulkAnalyzeStep
  cases h : getColumnValue item.column_values BULK_SOURCE_DATE_COLUMN with
  | none => rfl
  | some sd =>
    dsimp only
    split_ifs <;> rfl

lemma foldl_bulkAnalyzeStep_totalItems :
    ∀ (items : List Item) (a : BulkAnalysis),
      (items.foldl bulkAnalyzeStep a).totalItems = a.totalItems
  | [], _ => rfl
  | item :: rest, a => by
    rw [List.foldl_cons, foldl_bulkAnalyzeStep_totalItems rest,
      bulkAnalyzeStep_totalItems]

lemma length_fetchAllItems : ∀ pages : List (List Item),
    (fetchAllItems pages).length = (pages.map List.length).sum
  | [] => rfl
  | page :: rest => by
    unfold fetchAllItems
    rw [List.length_append, List.map_cons, List.sum_cons,
      length_fetchAllItems rest]

/-- Counterexample to C6 as stated: a bulk invocation does not stop at a
time budget and returns no resumption cursor — on a two-page board the
single invocation analyzes all four items across both pages, and supplying
a cursor query parameter changes nothing (the handler reads only
`execute`). -/
theorem bulkMigration_no_resumption :
    (bulkMigrationHandler { cursor := some "resume-here" } twoPages).analysis.totalItems
      = 4 ∧
    bulkMigrationHandler { cursor := some "resume-here" } twoPages =
      bulkMigrationHandler {} twoPages := by
  decide

/-- C6 amended: every bulk-migration invocation drains the whole cursor
chain itself — the analysis covers exactly the items of every page of the
board in that one invocation — and the response depends only on the
`execute` parameter, so there is no resumption input or cursor output. -/
theorem bulkMigration_single_invocation (pages : List (List Item)) (p1 p2 : BulkParams)
    (hexec : p1.execute = p2.execute) :
    (bulkMigrationHandler p1 pages).analysis.totalItems =
      (pages.map List.length).sum ∧
    bulkMigrationHandler p1 pages = bulkMigrationHandler p2 pages := by
  constructor
  · unfold bulkMigrationHandler
    dsimp only
    split_ifs <;>
      · dsimp only
        unfold bulkAnalyze
        rw [foldl_bulkAnalyzeStep_totalItems]
        exact length_fetchAllItems pages
  · unfold bulkMigrationHandler
    rw [hexec]

/-- Witness for the amended C6 on the concrete two-page board. -/
theorem bulkMigration_single_invocation_witness :
    (bulkMigrationHandler { cursor := some "abc" } twoPages).analysis.totalItems =
      (twoPages.map List.length).sum ∧
    bulkMigrationHandler { cursor := some "abc" } twoPages =
      bulkMigrationHandler { cursor := none } twoPages :=
  bulkMigration_single_invocation twoPages { cursor := some "abc" }
    { cursor := none } rfl
